import Mathlib

/-!
# Verification of the stripe-onboarder flow execution engine

A shallow embedding of `src/onboard.ts` and `src/tasks/puppeteer.ts` of the
sponsorkit/stripe-onboarder repository. The engine drives a multi-page web
form: it sequences page-filling steps, waits for network quiescence around
each step, detects validation errors, and classifies success, benign early
termination and failure. Effectful code is modelled by explicit environments
(what the page would report at each step) and by the trace of events the
engine performs.
-/

namespace StripeOnboarder

/-! ## JavaScript value model

Two `isOnStripePage` call sites differ in `onboard.ts`: line 184 awaits the
call, line 231 does not. To keep that distinction faithful we model the
result of calling an `async` function as a `JsPromise` object wrapping the
value the promise would resolve to. -/

/-- The object returned by calling a JavaScript `async` function without
`await`: a Promise that would resolve to `resolvesTo`. -/
structure JsPromise (α : Type) where
  resolvesTo : α
deriving DecidableEq, Repr

/-- JavaScript truthiness of a Promise object: any object is truthy, so the
result does not depend on the value the promise would resolve to. -/
def JsPromise.truthy {α : Type} (_p : JsPromise α) : Bool := true

/-- JavaScript string coercion of a Promise object, as performed by the `+`
operator on strings: always the text `[object Promise]`, never the resolved
value. -/
def JsPromise.asJsString {α : Type} (_p : JsPromise α) : String := "[object Promise]"

/-- Modelled from the spec: `isOnStripePage` lives in `src/tasks/stripe.ts`,
which is not part of the sources here. Section 6 of the design document
declares every page-interaction primitive asynchronous, so calling it
returns a Promise of the Boolean site/domain test; `onStripe` is the value
that test would resolve to for the current session state. -/
def isOnStripePage (onStripe : Bool) : JsPromise Bool := ⟨onStripe⟩

/-- Models `getCurrentUrl` from `src/tasks/puppeteer.ts`: an `async` function
whose promise resolves to the page's `document.location.href`. -/
def getCurrentUrl (href : String) : JsPromise String := ⟨href⟩

/-- Models `Error.prototype.toString()` for a JavaScript `Error` constructed
with message `m`. -/
def errorToString (m : String) : String := "Error: " ++ m

/-! ## Page observation environment

The engine's behaviour at each loop iteration depends only on what the page
reports there: whether the session is still on the Stripe site, the text of
the `h1` heading, whether the step task throws, and which `role="alert"`
elements are present after the task ran. An environment assigns such an
observation to every step index. -/

/-- What the live page would report to the engine at one step iteration. -/
structure StepObs where
  /-- The value `isOnStripePage` would resolve to at the pre-step check. -/
  onStripe : Bool
  /-- `textContent` of the first `h1` element, when one exists. -/
  heading : Option String
  /-- When `some m`, the step task throws an error with message `m`. -/
  taskError : Option String
  /-- The `textContent` of each `*[role="alert"]` element present after the
  task ran, in document order. -/
  alerts : List String
deriving DecidableEq, Repr

/-! ## Events and results -/

/-- One observable action of the engine, in execution order. -/
inductive Ev where
  /-- `page.waitForNetworkIdle({ idleTime: ms })`. -/
  | waitIdle (ms : Nat)
  /-- The heading label captured for progress output. -/
  | heading (label : String)
  /-- Invocation of the page task with the given source-level name. -/
  | runTask (name : String)
  /-- `browser.close()` via the `closeBrowser` helper. -/
  | closeBrowser
  /-- `window.alert` injected into the page by the debug handler. -/
  | injectAlert (text : String)
deriving DecidableEq, Repr

/-- Result of `fillOutPages`: a normal return or a thrown error message. -/
inductive PagesResult where
  | ok
  | err (msg : String)
deriving DecidableEq, Repr

/-- Terminal outcome of `fillOutFlow` as seen by the caller: the promise
either resolves or rejects with an error message. -/
inductive FlowOutcome where
  | resolved
  | rejected (msg : String)
deriving DecidableEq, Repr

/-- Trace and outcome of one `fillOutFlow` invocation. -/
structure FlowResult where
  events : List Ev
  outcome : FlowOutcome
deriving DecidableEq, Repr

/-- Number of `closeBrowser` events in a trace. -/
def closeCount : List Ev → Nat
  | [] => 0
  | Ev.closeBrowser :: rest => closeCount rest + 1
  | _ :: rest => closeCount rest

/-- The task names run in a trace, in order. -/
def ranTasks : List Ev → List String
  | [] => []
  | Ev.runTask n :: rest => n :: ranTasks rest
  | _ :: rest => ranTasks rest

/-! ## The engine, from `src/onboard.ts` and `src/tasks/puppeteer.ts` -/

/-- The idle time `waitForNavigation` requests from
`page.waitForNetworkIdle`, in milliseconds (`src/tasks/puppeteer.ts`). -/
def idleTimeMs : Nat := 3000

/-- Models `waitForNavigation` from `src/tasks/puppeteer.ts`: awaits
`page.waitForNetworkIdle({ idleTime: 3000 })`. The event records the
requested idle time. -/
def waitForNavigation : Ev := Ev.waitIdle idleTimeMs

/-- Models `fillOutPages` (`src/onboard.ts` lines 221-258). For each task:
wait for network idle; test `!isOnStripePage(context)` — the call is not
awaited in the source, so the test is of a Promise object's truthiness;
capture the heading label `headingText?.trim() ?? ""`; run the task; query
`*[role="alert"]` and throw on any hit; wait for network idle again. `env`
supplies the page observation at each index, `idx` the index of the current
task. -/
def fillOutPages (env : Nat → StepObs) : Nat → List String → List Ev × PagesResult
  | _, [] => ([], PagesResult.ok)
  | idx, task :: rest =>
    let obs := env idx
    if !(isOnStripePage obs.onStripe).truthy then
      ([waitForNavigation], PagesResult.ok)
    else
      let label := (obs.heading.map String.trim).getD ""
      match obs.taskError with
      | some m => ([waitForNavigation, Ev.heading label, Ev.runTask task], PagesResult.err m)
      | none =>
        if obs.alerts.length > 0 then
          ([waitForNavigation, Ev.heading label, Ev.runTask task],
            PagesResult.err ("Validation errors found. " ++ String.intercalate ". " obs.alerts))
        else
          let r := fillOutPages env (idx + 1) rest
          (waitForNavigation :: Ev.heading label :: Ev.runTask task ::
            waitForNavigation :: r.1, r.2)

/-- The three fixed prologue tasks of `fillOutFlow` (`src/onboard.ts`
lines 175-177). -/
def prologueTasks : List String :=
  ["fillOutGetPaidByPage", "fillOutVerificationCodePage", "fillOutTellUsAboutYourBusinessPage"]

/-- The combined task list `fillOutFlow` hands to `fillOutPages`
(`src/onboard.ts` lines 174-180): prologue, then the business-specific page
tasks, then the summary epilogue. -/
def combinedTasks (pageTasks : List String) : List String :=
  prologueTasks ++ pageTasks ++ ["fillOutSummaryPage"]

/-- The configuration fields of `OnboardOptions` that the failure handler
reads, with JSON serialisations kept abstract: `debugTruthy` is the
truthiness of `options.debug`, `debugJson` is `JSON.stringify(options.debug)`,
`valuesJson` is `JSON.stringify(options.values)`, and `version` is the
package version imported from `package.json`. -/
structure FlowCfg where
  debugTruthy : Bool
  debugJson : String
  valuesJson : String
  version : String
deriving DecidableEq, Repr

/-- The string passed to `window.alert` by the debug handler
(`src/onboard.ts` line 192). `getCurrentUrl(context.page)` is concatenated
without `await`, so JavaScript coerces the Promise object itself to a
string; `hrefAtCatch` (what the promise would resolve to) never appears. -/
def debugAlertText (cfg : FlowCfg) (errMsg hrefAtCatch : String) : String :=
  errorToString errMsg ++ "\ndebug: " ++ cfg.debugJson ++ "\nvalues: " ++ cfg.valuesJson
    ++ "\nurl: " ++ (getCurrentUrl hrefAtCatch).asJsString ++ "\n" ++ cfg.version

/-- Models `fillOutFlow` (`src/onboard.ts` lines 173-198) from the `try`
onward: run `fillOutPages` on the combined task list, then close the
browser; on a thrown error, test `!await isOnStripePage(context)` (awaited
here, unlike the pre-step check) and return silently when off-site;
otherwise inject the debug alert when `options.debug` is truthy, else close
the browser and rethrow. `onStripeAtCatch` is the value the site test
resolves to at catch time and `hrefAtCatch` the page location there. -/
def fillOutFlow (cfg : FlowCfg) (env : Nat → StepObs) (onStripeAtCatch : Bool)
    (hrefAtCatch : String) (pageTasks : List String) : FlowResult :=
  let r := fillOutPages env 0 (combinedTasks pageTasks)
  match r.2 with
  | PagesResult.ok => { events := r.1 ++ [Ev.closeBrowser], outcome := FlowOutcome.resolved }
  | PagesResult.err m =>
    if !(isOnStripePage onStripeAtCatch).resolvesTo then
      { events := r.1, outcome := FlowOutcome.resolved }
    else if cfg.debugTruthy then
      { events := r.1 ++ [Ev.injectAlert (debugAlertText cfg m hrefAtCatch)],
        outcome := FlowOutcome.resolved }
    else
      { events := r.1 ++ [Ev.closeBrowser], outcome := FlowOutcome.rejected m }

/-! ## The summary epilogue page, from `fillOutSummaryPage` -/

/-- What the summary page reports: how many `*[role=status]` boxes are
present, and whether the confirmation dialog's blue button exists after the
final submit. -/
structure SummaryPage where
  statusBoxes : Nat
  dialogConfirmPresent : Bool
deriving DecidableEq, Repr

/-- Effect of `fillOutSummaryPage` on the summary page: whether the final
submit button was clicked, how many times the dialog confirm button was
clicked, and the thrown error message if any. -/
structure SummaryResult where
  submitted : Bool
  dialogClicks : Nat
  error : Option String
deriving DecidableEq, Repr

/-- Models `fillOutSummaryPage` (`src/onboard.ts` lines 201-219): throw when
any status box is present; otherwise click the requirements-index done
button, then click the dialog confirmation button exactly once when it is
present. -/
def fillOutSummaryPage (p : SummaryPage) : SummaryResult :=
  if p.statusBoxes > 0 then
    { submitted := false, dialogClicks := 0,
      error := some "Fields were missing in summary despite no errors during flow." }
  else
    { submitted := true,
      dialogClicks := if p.dialogConfirmPresent then 1 else 0,
      error := none }

/-! ## Onboard values, from `getDefaultOnboardValues` and `onboard` -/

/-- `BusinessType` from `src/onboard.ts`. -/
inductive BusinessType where
  | company
  | non_profit
  | individual
deriving DecidableEq, Repr

/-- The nested `address` record of `OnboardValues`. Optional TypeScript
fields (`line2?`, `state?`) become `Option`; a deleted field is `none`. -/
structure Address where
  line1 : String
  line2 : Option String
  city : String
  state : Option String
  zip : String
deriving DecidableEq, Repr

/-- `OnboardValues` from `src/onboard.ts`. -/
structure OnboardValues where
  account_number : String
  address : Address
  business_type : BusinessType
  company_name : String
  company_phone : String
  company_tax_id : String
  company_url : String
  date_of_birth : String
  country : String
  email : String
  first_name : String
  id_number : String
  last_name : String
  phone : String
  routing_number : Option String
  ssn_last_4 : String
  title : String
deriving DecidableEq, Repr

/-- The values `getDefaultOnboardValues` obtains from the faker library;
kept as explicit inputs so the function is deterministic. -/
structure FakerValues where
  firstName : String
  lastName : String
  companyName : String
  companyUrl : String
  exampleEmail : String
  jobTitle : String
deriving DecidableEq, Repr

/-- Models `getDefaultOnboardValues` (`src/onboard.ts` lines 77-122). The
optional `country` parameter defaults to `"US"`; the `switch` on `country`
has a single `"DK"` case which overwrites phone numbers, zip, city and
account number and deletes `address.state` and `routing_number`. -/
def getDefaultOnboardValues (fk : FakerValues) (countryArg : Option String) : OnboardValues :=
  let country := countryArg.getD "US"
  let defaultValues : OnboardValues := {
    account_number := "000123456789"
    address := { line1 := "address_full_match", line2 := some "", city := "Beverly Hills",
                 state := some "CA", zip := "90210" }
    country := "US"
    business_type := BusinessType.company
    company_name := fk.companyName
    company_phone := "0000000000"
    company_tax_id := "000000000"
    company_url := fk.companyUrl
    date_of_birth := "01011901"
    email := fk.exampleEmail
    first_name := fk.firstName
    id_number := "000000000"
    last_name := fk.lastName
    phone := "0000000000"
    routing_number := some "110000000"
    ssn_last_4 := "0000"
    title := fk.jobTitle }
  if country = "DK" then
    { defaultValues with
        phone := "00000000"
        company_phone := "00000000"
        address := { defaultValues.address with zip := "8000", city := "Aarhus", state := none }
        account_number := "DK5000400440116243"
        routing_number := none }
  else
    defaultValues

/-- `Partial<OnboardValues>` as used for `options.values`: every top-level
field optional, absent by default. -/
structure OnboardValuesOverride where
  account_number : Option String := none
  address : Option Address := none
  business_type : Option BusinessType := none
  company_name : Option String := none
  company_phone : Option String := none
  company_tax_id : Option String := none
  company_url : Option String := none
  date_of_birth : Option String := none
  country : Option String := none
  email : Option String := none
  first_name : Option String := none
  id_number : Option String := none
  last_name : Option String := none
  phone : Option String := none
  routing_number : Option (Option String) := none
  ssn_last_4 : Option String := none
  title : Option String := none
deriving DecidableEq, Repr

/-- The object spread `{ ...defaults, ...options.values }` of `onboard`
(`src/onboard.ts` lines 60-63): a shallow merge in which every top-level
field present in the caller's values replaces the default. -/
def mergeOnboardValues (d : OnboardValues) (g : OnboardValuesOverride) : OnboardValues :=
  { account_number := g.account_number.getD d.account_number
    address := g.address.getD d.address
    business_type := g.business_type.getD d.business_type
    company_name := g.company_name.getD d.company_name
    company_phone := g.company_phone.getD d.company_phone
    company_tax_id := g.company_tax_id.getD d.company_tax_id
    company_url := g.company_url.getD d.company_url
    date_of_birth := g.date_of_birth.getD d.date_of_birth
    country := g.country.getD d.country
    email := g.email.getD d.email
    first_name := g.first_name.getD d.first_name
    id_number := g.id_number.getD d.id_number
    last_name := g.last_name.getD d.last_name
    phone := g.phone.getD d.phone
    routing_number := g.routing_number.getD d.routing_number
    ssn_last_4 := g.ssn_last_4.getD d.ssn_last_4
    title := g.title.getD d.title }

/-- The resolved value set `onboard` computes (`src/onboard.ts` lines 60-63):
defaults for `options.values?.country` merged with the caller's values. -/
def onboardResolvedValues (fk : FakerValues) (g : OnboardValuesOverride) : OnboardValues :=
  mergeOnboardValues (getDefaultOnboardValues fk g.country) g

/-! ## Trace shape predicates and concrete inputs -/

/-- An observation at which the step runs with no thrown error and no
alert element present afterwards. -/
def cleanStep (obs : StepObs) : Prop := obs.taskError = none ∧ obs.alerts = []

/-- The four events one uninterrupted loop iteration produces: pre-step
wait, heading capture, task run, post-step wait. -/
def stepBlock (obs : StepObs) (name : String) : List Ev :=
  [waitForNavigation, Ev.heading ((obs.heading.map String.trim).getD ""),
    Ev.runTask name, waitForNavigation]

/-- The trace of a run in which every step is clean: one `stepBlock` per
task, in task order. -/
def cleanTrace (env : Nat → StepObs) : Nat → List String → List Ev
  | _, [] => []
  | idx, t :: rest => stepBlock (env idx) t ++ cleanTrace env (idx + 1) rest

/-- Holds of traces made of complete step blocks, each task run preceded by
a 3000 ms idle wait and followed by one, possibly ending in a truncated
block whose task run has nothing after it (the abort-on-error shapes). -/
def bracketedRun : List Ev → Bool
  | [] => true
  | [Ev.waitIdle m, Ev.heading _, Ev.runTask _] => m == 3000
  | Ev.waitIdle m1 :: Ev.heading _ :: Ev.runTask _ :: Ev.waitIdle m2 :: rest =>
      (m1 == 3000) && (m2 == 3000) && bracketedRun rest
  | _ => false

/-- Holds of traces made only of complete step blocks: every task run both
preceded and followed by a 3000 ms idle wait. -/
def bracketedFull : List Ev → Bool
  | [] => true
  | Ev.waitIdle m1 :: Ev.heading _ :: Ev.runTask _ :: Ev.waitIdle m2 :: rest =>
      (m1 == 3000) && (m2 == 3000) && bracketedFull rest
  | _ => false

/-- A step observation with the session already off the Stripe site and an
otherwise clean step. -/
def offSiteObs : StepObs :=
  { onStripe := false, heading := some "Heading", taskError := none, alerts := [] }

/-- A step observation whose task throws with message `boom` while the
session stays on the Stripe site. -/
def failingStepObs : StepObs :=
  { onStripe := true, heading := none, taskError := some "boom", alerts := [] }

/-- A step observation with one alert element reading `Phone number
invalid` after the task ran. -/
def phoneAlertObs : StepObs :=
  { onStripe := true, heading := some "Mobile number", taskError := none,
    alerts := ["Phone number invalid"] }

/-- A clean step observation used for witness runs. -/
def cleanObs : StepObs :=
  { onStripe := true, heading := some "Business details", taskError := none, alerts := [] }

/-- A configuration with `debug` falsy. -/
def cfgNoDebug : FlowCfg :=
  { debugTruthy := false, debugJson := "false", valuesJson := "vals", version := "1.0.0" }

/-- A configuration with `debug` truthy, serialising to `true`. -/
def cfgDebug : FlowCfg :=
  { debugTruthy := true, debugJson := "true", valuesJson := "vals", version := "1.0.0" }

/-- Concrete faker output used for witness runs. -/
def fkSample : FakerValues :=
  { firstName := "Ada", lastName := "Lovelace", companyName := "Analytical Engines",
    companyUrl := "https://example.com", exampleEmail := "ada@example.com",
    jobTitle := "Engineer" }

/-! ## Helper lemmas -/

theorem closeCount_append (a b : List Ev) :
    closeCount (a ++ b) = closeCount a + closeCount b := by
  induction a with
  | nil => simp [closeCount]
  | cons e rest ih => cases e <;> simp [closeCount, ih, Nat.add_right_comm]

theorem ranTasks_append (a b : List Ev) :
    ranTasks (a ++ b) = ranTasks a ++ ranTasks b := by
  induction a with
  | nil => simp [ranTasks]
  | cons e rest ih => cases e <;> simp [ranTasks, ih]

theorem fillOutPages_cons_err (env : Nat → StepObs) (idx : Nat) (t : String)
    (rest : List String) (m : String) (h1 : (env idx).taskError = some m) :
    fillOutPages env idx (t :: rest) =
      ([waitForNavigation, Ev.heading (((env idx).heading.map String.trim).getD ""),
        Ev.runTask t], PagesResult.err m) := by
  simp [fillOutPages, isOnStripePage, JsPromise.truthy, h1]

theorem fillOutPages_cons_alerts (env : Nat → StepObs) (idx : Nat) (t : String)
    (rest : List String) (h1 : (env idx).taskError = none) (h2 : (env idx).alerts ≠ []) :
    fillOutPages env idx (t :: rest) =
      ([waitForNavigation, Ev.heading (((env idx).heading.map String.trim).getD ""),
        Ev.runTask t],
       PagesResult.err ("Validation errors found. " ++
         String.intercalate ". " (env idx).alerts)) := by
  have hlen : (env idx).alerts.length > 0 := List.length_pos.mpr h2
  simp [fillOutPages, isOnStripePage, JsPromise.truthy, h1, hlen]

theorem fillOutPages_cons_clean (env : Nat → StepObs) (idx : Nat) (t : String)
    (rest : List String) (h1 : (env idx).taskError = none) (h2 : (env idx).alerts = []) :
    fillOutPages env idx (t :: rest) =
      (stepBlock (env idx) t ++ (fillOutPages env (idx + 1) rest).1,
       (fillOutPages env (idx + 1) rest).2) := by
  simp [fillOutPages, isOnStripePage, JsPromise.truthy, h1, h2, stepBlock]

theorem fillOutPages_clean (env : Nat → StepObs) (tasks : List String) :
    ∀ idx, (∀ i, i < tasks.length → cleanStep (env (idx + i))) →
      fillOutPages env idx tasks = (cleanTrace env idx tasks, PagesResult.ok) := by
  induction tasks with
  | nil => intro idx _; simp [fillOutPages, cleanTrace]
  | cons t rest ih =>
    intro idx h
    have h0 : cleanStep (env idx) := by simpa using h 0 (by simp)
    have hrest : ∀ i, i < rest.length → cleanStep (env (idx + 1 + i)) := by
      intro i hi
      have hlt : i + 1 < (t :: rest).length := by simp; omega
      have := h (i + 1) hlt
      have e : idx + (i + 1) = idx + 1 + i := by omega
      rwa [e] at this
    rw [fillOutPages_cons_clean env idx t rest h0.1 h0.2, ih (idx + 1) hrest]
    simp [cleanTrace]

theorem closeCount_fillOutPages (env : Nat → StepObs) (tasks : List String) :
    ∀ idx, closeCount (fillOutPages env idx tasks).1 = 0 := by
  induction tasks with
  | nil => intro idx; simp [fillOutPages, closeCount]
  | cons t rest ih =>
    intro idx
    cases htask : (env idx).taskError with
    | some m => simp [fillOutPages_cons_err env idx t rest m htask, closeCount]
    | none =>
      cases halerts : (env idx).alerts with
      | nil =>
        rw [fillOutPages_cons_clean env idx t rest htask halerts]
        simp [closeCount_append, stepBlock, closeCount, ih (idx + 1)]
      | cons a as =>
        rw [fillOutPages_cons_alerts env idx t rest htask (by simp [halerts])]
        simp [closeCount]

theorem ranTasks_stepBlock (obs : StepObs) (t : String) :
    ranTasks (stepBlock obs t) = [t] := by
  simp [stepBlock, ranTasks, waitForNavigation]

theorem ranTasks_cleanTrace (env : Nat → StepObs) (tasks : List String) :
    ∀ idx, ranTasks (cleanTrace env idx tasks) = tasks := by
  induction tasks with
  | nil => intro idx; simp [cleanTrace, ranTasks]
  | cons t rest ih =>
    intro idx
    simp [cleanTrace, ranTasks_append, ranTasks_stepBlock, ih (idx + 1)]

theorem bracketedRun_short (m : Nat) (l t : String) :
    bracketedRun [Ev.waitIdle m, Ev.heading l, Ev.runTask t] = (m == 3000) := rfl

theorem bracketedRun_block (m1 m2 : Nat) (l t : String) (rest : List Ev) :
    bracketedRun (Ev.waitIdle m1 :: Ev.heading l :: Ev.runTask t :: Ev.waitIdle m2 :: rest) =
      ((m1 == 3000) && (m2 == 3000) && bracketedRun rest) := rfl

theorem bracketedFull_block (m1 m2 : Nat) (l t : String) (rest : List Ev) :
    bracketedFull (Ev.waitIdle m1 :: Ev.heading l :: Ev.runTask t :: Ev.waitIdle m2 :: rest) =
      ((m1 == 3000) && (m2 == 3000) && bracketedFull rest) := rfl

theorem bracketedRun_fillOutPages (env : Nat → StepObs) (tasks : List String) :
    ∀ idx, bracketedRun (fillOutPages env idx tasks).1 = true := by
  induction tasks with
  | nil => intro idx; simp [fillOutPages, bracketedRun]
  | cons t rest ih =>
    intro idx
    cases htask : (env idx).taskError with
    | some m =>
      rw [fillOutPages_cons_err env idx t rest m htask]
      simp [waitForNavigation, idleTimeMs, bracketedRun_short]
    | none =>
      cases halerts : (env idx).alerts with
      | nil =>
        rw [fillOutPages_cons_clean env idx t rest htask halerts]
        simp only [stepBlock, waitForNavigation, idleTimeMs, List.cons_append,
          List.nil_append, bracketedRun_block]
        simp [ih (idx + 1)]
      | cons a as =>
        rw [fillOutPages_cons_alerts env idx t rest htask (by simp [halerts])]
        simp [waitForNavigation, idleTimeMs, bracketedRun_short]

theorem bracketedFull_fillOutPages (env : Nat → StepObs) (tasks : List String) :
    ∀ idx, (fillOutPages env idx tasks).2 = PagesResult.ok →
      bracketedFull (fillOutPages env idx tasks).1 = true := by
  induction tasks with
  | nil => intro idx _; simp [fillOutPages, bracketedFull]
  | cons t rest ih =>
    intro idx hok
    cases htask : (env idx).taskError with
    | some m =>
      rw [fillOutPages_cons_err env idx t rest m htask] at hok
      simp at hok
    | none =>
      cases halerts : (env idx).alerts with
      | nil =>
        have hred := fillOutPages_cons_clean env idx t rest htask halerts
        rw [hred] at hok ⊢
        simp only [stepBlock, waitForNavigation, idleTimeMs, List.cons_append,
          List.nil_append, bracketedFull_block]
        simp at hok
        simp [ih (idx + 1) hok]
      | cons a as =>
        rw [fillOutPages_cons_alerts env idx t rest htask (by simp [halerts])] at hok
        simp at hok

theorem fillOutPages_validation_abort (env : Nat → StepObs) (tasks : List String) :
    ∀ idx k, k < tasks.length →
      (∀ j, j < k → cleanStep (env (idx + j))) →
      (env (idx + k)).taskError = none →
      (env (idx + k)).alerts ≠ [] →
      (fillOutPages env idx tasks).2 =
        PagesResult.err ("Validation errors found. " ++
          String.intercalate ". " (env (idx + k)).alerts) ∧
      ranTasks (fillOutPages env idx tasks).1 = tasks.take (k + 1) := by
  induction tasks with
  | nil => intro idx k hk; exact absurd hk (by simp)
  | cons t rest ih =>
    intro idx k hk hclean htask halerts
    cases k with
    | zero =>
      simp only [Nat.add_zero] at htask halerts
      rw [fillOutPages_cons_alerts env idx t rest htask halerts]
      simp [ranTasks]
    | succ k' =>
      have h0 : cleanStep (env idx) := by simpa using hclean 0 (Nat.succ_pos k')
      have e : idx + (k' + 1) = idx + 1 + k' := by omega
      have hk' : k' < rest.length := by simp at hk; omega
      have hclean' : ∀ j, j < k' → cleanStep (env (idx + 1 + j)) := by
        intro j hj
        have := hclean (j + 1) (by omega)
        have e2 : idx + (j + 1) = idx + 1 + j := by omega
        rwa [e2] at this
      have ih' := ih (idx + 1) k' hk' hclean' (by rwa [e] at htask) (by rwa [e] at halerts)
      rw [fillOutPages_cons_clean env idx t rest h0.1 h0.2]
      rw [e]
      constructor
      · exact ih'.1
      · simp [ranTasks_append, ranTasks_stepBlock, ih'.2]

theorem ranTasks_prefix_fillOutPages (env : Nat → StepObs) (tasks : List String) :
    ∀ idx, ∃ n, n ≤ tasks.length ∧
      ranTasks (fillOutPages env idx tasks).1 = tasks.take n := by
  induction tasks with
  | nil => intro idx; exact ⟨0, Nat.le_refl 0, by simp [fillOutPages, ranTasks]⟩
  | cons t rest ih =>
    intro idx
    cases htask : (env idx).taskError with
    | some m =>
      refine ⟨1, by simp, ?_⟩
      rw [fillOutPages_cons_err env idx t rest m htask]
      simp [ranTasks]
    | none =>
      cases halerts : (env idx).alerts with
      | nil =>
        obtain ⟨n, hn, he⟩ := ih (idx + 1)
        refine ⟨n + 1, by simp; omega, ?_⟩
        rw [fillOutPages_cons_clean env idx t rest htask halerts]
        simp [ranTasks_append, ranTasks_stepBlock, he]
      | cons a as =>
        refine ⟨1, by simp, ?_⟩
        rw [fillOutPages_cons_alerts env idx t rest htask (by simp [halerts])]
        simp [ranTasks]

/-! ## Claim theorems -/

/-- Claim C1: the claim says that when, after the pre-step quiescence wait,
the session is no longer on the Stripe site, the engine stops all remaining
steps. In the source the pre-step check tests `!isOnStripePage(context)`
without `await`, so it tests the truthiness of a Promise object, which is
always truthy, and the check can never fire: with the site test resolving
to `false` at every step, both steps still run and the loop completes. -/
theorem claimC1_pre_step_check_dead :
    ranTasks (fillOutPages (fun _ => offSiteObs) 0 ["stepA", "stepB"]).1 = ["stepA", "stepB"] ∧
    (fillOutPages (fun _ => offSiteObs) 0 ["stepA", "stepB"]).2 = PagesResult.ok ∧
    offSiteObs.onStripe = false ∧
    (isOnStripePage offSiteObs.onStripe).truthy = true := by decide

/-- Claim C2 counterexample: on the reactive benign-early-termination exit
(a step error caught while the session is off the Stripe site, debug off)
the flow resolves successfully but the browser is closed zero times, not
exactly once as the claim states. -/
theorem claimC2_counterexample :
    (fillOutFlow cfgNoDebug (fun _ => failingStepObs) false "https://example.com/done" []).outcome =
      FlowOutcome.resolved ∧
    (fillOutPages (fun _ => failingStepObs) 0 (combinedTasks [])).2 = PagesResult.err "boom" ∧
    closeCount (fillOutFlow cfgNoDebug (fun _ => failingStepObs) false
      "https://example.com/done" []).events = 0 ∧
    closeCount (fillOutFlow cfgNoDebug (fun _ => failingStepObs) false
      "https://example.com/done" []).events ≠ 1 := by decide

/-- Claim C2, amended: the browser session is released exactly once on the
success exit and on the non-debug on-site failure exit; it is released zero
times when an error is suppressed as benign early termination (the catch
returns without closing), and zero times in debug-inspection mode. -/
theorem claimC2_release_amended (cfg : FlowCfg) (env : Nat → StepObs) (b : Bool)
    (href : String) (pts : List String) :
    closeCount (fillOutFlow cfg env b href pts).events =
      (match (fillOutPages env 0 (combinedTasks pts)).2 with
       | PagesResult.ok => 1
       | PagesResult.err _ => if b then (if cfg.debugTruthy then 0 else 1) else 0) := by
  cases hr : (fillOutPages env 0 (combinedTasks pts)).2 with
  | ok =>
    simp [fillOutFlow, hr, closeCount_append, closeCount_fillOutPages, closeCount]
  | err m =>
    cases b with
    | false =>
      simp [fillOutFlow, hr, isOnStripePage, closeCount_fillOutPages]
    | true =>
      cases hdbg : cfg.debugTruthy with
      | false =>
        simp [fillOutFlow, hr, isOnStripePage, hdbg, closeCount_append,
          closeCount_fillOutPages, closeCount]
      | true =>
        simp [fillOutFlow, hr, isOnStripePage, hdbg, closeCount_append,
          closeCount_fillOutPages, closeCount]

/-- Claim C3 counterexample: a single alert reading `Phone number invalid`
makes the flow fail with message `Validation errors found. Phone number
invalid` — without the trailing period the claim quotes, since
`join(". ")` of a one-element list adds nothing after it. -/
theorem claimC3_counterexample :
    (fillOutPages (fun _ => phoneAlertObs) 0 ["CollectPhone"]).2 =
      PagesResult.err "Validation errors found. Phone number invalid" ∧
    (fillOutPages (fun _ => phoneAlertObs) 0 ["CollectPhone"]).2 ≠
      PagesResult.err "Validation errors found. Phone number invalid." := by decide

/-- Claim C3, amended: if after a step's execution (first failing step at
relative position `k`, all earlier steps clean) one or more alert-role
elements are present, the flow aborts immediately — no task after position
`k` runs — with an error message that is `Validation errors found. `
followed by the alert texts joined by `. ` (so a single alert `Phone number
invalid` yields `Validation errors found. Phone number invalid`, with no
trailing period). -/
theorem claimC3_validation_errors (env : Nat → StepObs) (tasks : List String) (idx k : Nat)
    (hk : k < tasks.length)
    (hclean : ∀ j, j < k → cleanStep (env (idx + j)))
    (htask : (env (idx + k)).taskError = none)
    (halerts : (env (idx + k)).alerts ≠ []) :
    (fillOutPages env idx tasks).2 =
      PagesResult.err ("Validation errors found. " ++
        String.intercalate ". " (env (idx + k)).alerts) ∧
    ranTasks (fillOutPages env idx tasks).1 = tasks.take (k + 1) :=
  fillOutPages_validation_abort env tasks idx k hk hclean htask halerts

/-- Witness for claim C3 at a concrete input: one step, one alert `Phone
number invalid`, yielding the message without a trailing period. -/
theorem claimC3_validation_errors_witness :
    (fillOutPages (fun _ => phoneAlertObs) 0 ["CollectPhone"]).2 =
      PagesResult.err ("Validation errors found. " ++
        String.intercalate ". " phoneAlertObs.alerts) ∧
    ranTasks (fillOutPages (fun _ => phoneAlertObs) 0 ["CollectPhone"]).1 =
      ["CollectPhone"].take (0 + 1) :=
  claimC3_validation_errors (fun _ => phoneAlertObs) ["CollectPhone"] 0 0
    (by decide) (fun j hj => absurd hj (Nat.not_lt_zero j)) (by decide) (by decide)

/-- Claim C4 counterexample: an error raised while the session is still on
the target site does not surface to the caller when debug is truthy — the
step throws `boom` on-site, yet the flow resolves. -/
theorem claimC4_counterexample :
    (fillOutPages (fun _ => failingStepObs) 0 (combinedTasks [])).2 = PagesResult.err "boom" ∧
    (fillOutFlow cfgDebug (fun _ => failingStepObs) true "https://connect.stripe.com/x" []).outcome =
      FlowOutcome.resolved ∧
    (fillOutFlow cfgDebug (fun _ => failingStepObs) true "https://connect.stripe.com/x" []).outcome ≠
      FlowOutcome.rejected "boom" := by decide

/-- Claim C4, amended: an error caught while the session is off the target
site is suppressed and the flow resolves successfully; an error caught
on-site surfaces to the caller only when debug is falsy — when debug is
truthy it is captured in-page and the flow resolves without surfacing it. -/
theorem claimC4_error_suppression_amended (cfg : FlowCfg) (env : Nat → StepObs) (b : Bool)
    (href : String) (pts : List String) (m : String)
    (herr : (fillOutPages env 0 (combinedTasks pts)).2 = PagesResult.err m) :
    (b = false → (fillOutFlow cfg env b href pts).outcome = FlowOutcome.resolved) ∧
    (b = true → cfg.debugTruthy = false →
      (fillOutFlow cfg env b href pts).outcome = FlowOutcome.rejected m) ∧
    (b = true → cfg.debugTruthy = true →
      (fillOutFlow cfg env b href pts).outcome = FlowOutcome.resolved) := by
  refine ⟨fun hb => ?_, fun hb hd => ?_, fun hb hd => ?_⟩
  · simp [fillOutFlow, herr, isOnStripePage, hb]
  · simp [fillOutFlow, herr, isOnStripePage, hb, hd]
  · simp [fillOutFlow, herr, isOnStripePage, hb, hd]

/-- Witness for claim C4 at concrete inputs: the same thrown error `boom`
is suppressed off-site, rejected on-site without debug, and resolved
on-site with debug. -/
theorem claimC4_error_suppression_amended_witness :
    (fillOutFlow cfgNoDebug (fun _ => failingStepObs) false "u" []).outcome =
      FlowOutcome.resolved ∧
    (fillOutFlow cfgNoDebug (fun _ => failingStepObs) true "u" []).outcome =
      FlowOutcome.rejected "boom" ∧
    (fillOutFlow cfgDebug (fun _ => failingStepObs) true "u" []).outcome =
      FlowOutcome.resolved :=
  ⟨(claimC4_error_suppression_amended cfgNoDebug (fun _ => failingStepObs) false "u" []
      "boom" (by decide)).1 rfl,
   (claimC4_error_suppression_amended cfgNoDebug (fun _ => failingStepObs) true "u" []
      "boom" (by decide)).2.1 rfl rfl,
   (claimC4_error_suppression_amended cfgDebug (fun _ => failingStepObs) true "u" []
      "boom" (by decide)).2.2 rfl rfl⟩

/-- Claim C5: with debug truthy and an error raised on-site, the engine
injects an in-page alert and neither closes the browser nor rethrows — but
the alert's `url:` field holds `[object Promise]`, because `getCurrentUrl`
is concatenated without `await`; the page's actual location (here
`https://connect.stripe.com/setup/s`) never appears in the alert text. -/
theorem claimC5_debug_alert :
    (fillOutFlow cfgDebug (fun _ => failingStepObs) true
        "https://connect.stripe.com/setup/s" []).events =
      (fillOutPages (fun _ => failingStepObs) 0 (combinedTasks [])).1 ++
        [Ev.injectAlert "Error: boom\ndebug: true\nvalues: vals\nurl: [object Promise]\n1.0.0"] ∧
    closeCount (fillOutFlow cfgDebug (fun _ => failingStepObs) true
      "https://connect.stripe.com/setup/s" []).events = 0 ∧
    (fillOutFlow cfgDebug (fun _ => failingStepObs) true
      "https://connect.stripe.com/setup/s" []).outcome = FlowOutcome.resolved := by decide

/-- Claim C6: with debug falsy and an error raised while still on the
target site, the engine closes the browser session (exactly once, after the
step trace) and rejects with the original error message verbatim. -/
theorem claimC6_close_and_rethrow (cfg : FlowCfg) (env : Nat → StepObs)
    (href : String) (pts : List String) (m : String)
    (hdbg : cfg.debugTruthy = false)
    (herr : (fillOutPages env 0 (combinedTasks pts)).2 = PagesResult.err m) :
    (fillOutFlow cfg env true href pts).outcome = FlowOutcome.rejected m ∧
    (fillOutFlow cfg env true href pts).events =
      (fillOutPages env 0 (combinedTasks pts)).1 ++ [Ev.closeBrowser] ∧
    closeCount (fillOutFlow cfg env true href pts).events = 1 := by
  refine ⟨?_, ?_, ?_⟩ <;>
    simp [fillOutFlow, herr, isOnStripePage, hdbg, closeCount_append,
      closeCount_fillOutPages, closeCount]

/-- Witness for claim C6 at a concrete input: the step throws `boom`
on-site with debug off; the browser closes once and the flow rejects with
`boom`. -/
theorem claimC6_close_and_rethrow_witness :
    (fillOutFlow cfgNoDebug (fun _ => failingStepObs) true "u" []).outcome =
      FlowOutcome.rejected "boom" ∧
    (fillOutFlow cfgNoDebug (fun _ => failingStepObs) true "u" []).events =
      (fillOutPages (fun _ => failingStepObs) 0 (combinedTasks [])).1 ++ [Ev.closeBrowser] ∧
    closeCount (fillOutFlow cfgNoDebug (fun _ => failingStepObs) true "u" []).events = 1 :=
  claimC6_close_and_rethrow cfgNoDebug (fun _ => failingStepObs) "u" [] "boom" rfl (by decide)

/-- Claim C7: when every step is clean, the engine runs the fixed prologue
(get-paid-by, verification code, tell-us-about-your-business), then the
business-specific page tasks, then the summary epilogue, in strict order:
the trace is one `stepBlock` per task in task order — each task run is
bracketed by its pre-step wait and its post-step wait, so step N+1's block
begins only after step N's post-step wait, and the flow resolves. -/
theorem claimC7_strict_order (cfg : FlowCfg) (env : Nat → StepObs) (b : Bool)
    (href : String) (pts : List String)
    (hclean : ∀ i, i < (combinedTasks pts).length → cleanStep (env i)) :
    (fillOutFlow cfg env b href pts).events =
      cleanTrace env 0 (combinedTasks pts) ++ [Ev.closeBrowser] ∧
    (fillOutFlow cfg env b href pts).outcome = FlowOutcome.resolved ∧
    ranTasks (cleanTrace env 0 (combinedTasks pts)) = combinedTasks pts ∧
    combinedTasks pts = prologueTasks ++ pts ++ ["fillOutSummaryPage"] ∧
    (∀ (env2 : Nat → StepObs) (tasks : List String) (idx : Nat),
      ∃ n, n ≤ tasks.length ∧
        ranTasks (fillOutPages env2 idx tasks).1 = tasks.take n) := by
  have hp := fillOutPages_clean env (combinedTasks pts) 0
    (by intro i hi; simpa using hclean i hi)
  exact ⟨by simp [fillOutFlow, hp], by simp [fillOutFlow, hp],
    ranTasks_cleanTrace env (combinedTasks pts) 0, rfl,
    fun env2 tasks idx => ranTasks_prefix_fillOutPages env2 tasks idx⟩

/-- Witness for claim C7 at a concrete input: one business-specific task
and all steps clean; the trace is the five step blocks in order followed by
the browser close. -/
theorem claimC7_strict_order_witness :
    (fillOutFlow cfgNoDebug (fun _ => cleanObs) true "u" ["flowStep"]).events =
      cleanTrace (fun _ => cleanObs) 0 (combinedTasks ["flowStep"]) ++ [Ev.closeBrowser] ∧
    (fillOutFlow cfgNoDebug (fun _ => cleanObs) true "u" ["flowStep"]).outcome =
      FlowOutcome.resolved ∧
    ranTasks (cleanTrace (fun _ => cleanObs) 0 (combinedTasks ["flowStep"])) =
      combinedTasks ["flowStep"] ∧
    combinedTasks ["flowStep"] = prologueTasks ++ ["flowStep"] ++ ["fillOutSummaryPage"] := by
  have h := claimC7_strict_order cfgNoDebug (fun _ => cleanObs) true "u" ["flowStep"]
    (fun _ _ => ⟨rfl, rfl⟩)
  exact ⟨h.1, h.2.1, h.2.2.1, h.2.2.2.1⟩

/-- Claim C8: on the summary epilogue page, any outstanding status-role
indicator makes the flow fail immediately with the missing-fields error and
no submission; with none present the engine submits, and clicks the
confirmation dialog exactly once when it appears (never more than once). -/
theorem claimC8_summary_epilogue (p : SummaryPage) :
    (0 < p.statusBoxes →
      fillOutSummaryPage p =
        { submitted := false, dialogClicks := 0,
          error := some "Fields were missing in summary despite no errors during flow." }) ∧
    (p.statusBoxes = 0 →
      (fillOutSummaryPage p).error = none ∧
      (fillOutSummaryPage p).submitted = true ∧
      (fillOutSummaryPage p).dialogClicks = (if p.dialogConfirmPresent then 1 else 0) ∧
      (fillOutSummaryPage p).dialogClicks ≤ 1) := by
  constructor
  · intro h
    simp [fillOutSummaryPage, h]
  · intro h
    refine ⟨?_, ?_, ?_, ?_⟩ <;>
      cases hd : p.dialogConfirmPresent <;> simp [fillOutSummaryPage, h, hd]

/-- Witness for claim C8 at concrete inputs: one status box makes the
summary fail without submitting; no status boxes with a dialog present
yields exactly one confirmation click. -/
theorem claimC8_summary_epilogue_witness :
    fillOutSummaryPage ⟨1, false⟩ =
      { submitted := false, dialogClicks := 0,
        error := some "Fields were missing in summary despite no errors during flow." } ∧
    (fillOutSummaryPage ⟨0, true⟩).dialogClicks = 1 := by
  refine ⟨(claimC8_summary_epilogue ⟨1, false⟩).1 (by decide), ?_⟩
  have h := (claimC8_summary_epilogue ⟨0, true⟩).2 rfl
  simpa using h.2.2.1

/-- Claim C9: `waitForNavigation` requests a 3000 ms network-idle window,
and in every run each executed step is preceded by such a wait and, when
its validation check passes, followed by one (`bracketedRun` holds of every
trace); in a run that completes, every step is both preceded and followed
by the 3000 ms wait (`bracketedFull`). -/
theorem claimC9_quiescence_waits :
    idleTimeMs = 3000 ∧
    waitForNavigation = Ev.waitIdle 3000 ∧
    (∀ (env : Nat → StepObs) (idx : Nat) (tasks : List String),
      bracketedRun (fillOutPages env idx tasks).1 = true) ∧
    (∀ (env : Nat → StepObs) (idx : Nat) (tasks : List String),
      (fillOutPages env idx tasks).2 = PagesResult.ok →
      bracketedFull (fillOutPages env idx tasks).1 = true) :=
  ⟨rfl, rfl, fun env idx tasks => bracketedRun_fillOutPages env tasks idx,
   fun env idx tasks h => bracketedFull_fillOutPages env tasks idx h⟩

/-- Witness for claim C9 at a concrete input: a clean two-step run has
every task run bracketed by 3000 ms idle waits. -/
theorem claimC9_quiescence_waits_witness :
    bracketedRun (fillOutPages (fun _ => cleanObs) 0 ["a", "b"]).1 = true ∧
    bracketedFull (fillOutPages (fun _ => cleanObs) 0 ["a", "b"]).1 = true :=
  ⟨claimC9_quiescence_waits.2.2.1 (fun _ => cleanObs) 0 ["a", "b"],
   claimC9_quiescence_waits.2.2.2 (fun _ => cleanObs) 0 ["a", "b"] (by decide)⟩

/-- Claim C10: `getDefaultOnboardValues` always returns `country = "US"`
whatever the argument; the `DK` argument removes `address.state` and
`routing_number` and sets the DK-specific phone, company phone, zip, city
and account number; any other argument returns the US defaults unchanged;
and the resolved values of `onboard` give caller-provided fields precedence
over the defaults. -/
theorem claimC10_defaults_and_merge (fk : FakerValues) :
    (∀ c : Option String, (getDefaultOnboardValues fk c).country = "US") ∧
    ((getDefaultOnboardValues fk (some "DK")).address.state = none ∧
     (getDefaultOnboardValues fk (some "DK")).routing_number = none ∧
     (getDefaultOnboardValues fk (some "DK")).phone = "00000000" ∧
     (getDefaultOnboardValues fk (some "DK")).company_phone = "00000000" ∧
     (getDefaultOnboardValues fk (some "DK")).address.zip = "8000" ∧
     (getDefaultOnboardValues fk (some "DK")).address.city = "Aarhus" ∧
     (getDefaultOnboardValues fk (some "DK")).account_number = "DK5000400440116243") ∧
    (∀ c : String, c ≠ "DK" →
      getDefaultOnboardValues fk (some c) = getDefaultOnboardValues fk none) ∧
    (onboardResolvedValues fk {} = getDefaultOnboardValues fk none) ∧
    (∀ (g : OnboardValuesOverride) (v : String),
      g.phone = some v → (onboardResolvedValues fk g).phone = v) ∧
    (∀ (g : OnboardValuesOverride) (v : String),
      g.account_number = some v → (onboardResolvedValues fk g).account_number = v) ∧
    (∀ (g : OnboardValuesOverride) (v : String),
      g.country = some v → (onboardResolvedValues fk g).country = v) ∧
    (∀ (g : OnboardValuesOverride) (bt : BusinessType),
      g.business_type = some bt → (onboardResolvedValues fk g).business_type = bt) ∧
    (∀ (g : OnboardValuesOverride) (a : Address),
      g.address = some a → (onboardResolvedValues fk g).address = a) := by
  refine ⟨?_, ?_, ?_, ?_, ?_, ?_, ?_, ?_, ?_⟩
  · intro c
    by_cases h : c.getD "US" = "DK" <;> simp [getDefaultOnboardValues, h]
  · exact ⟨rfl, rfl, rfl, rfl, rfl, rfl, rfl⟩
  · intro c hc
    simp [getDefaultOnboardValues, hc]
  · rfl
  · intro g v h
    simp [onboardResolvedValues, mergeOnboardValues, h]
  · intro g v h
    simp [onboardResolvedValues, mergeOnboardValues, h]
  · intro g v h
    simp [onboardResolvedValues, mergeOnboardValues, h]
  · intro g bt h
    simp [onboardResolvedValues, mergeOnboardValues, h]
  · intro g a h
    simp [onboardResolvedValues, mergeOnboardValues, h]

/-- Witness for claim C10 at concrete inputs: the `SE` argument returns the
US defaults, and caller-provided phone and country survive the merge. -/
theorem claimC10_defaults_and_merge_witness :
    getDefaultOnboardValues fkSample (some "SE") = getDefaultOnboardValues fkSample none ∧
    (onboardResolvedValues fkSample { phone := some "11112222", country := some "DK" }).phone =
      "11112222" ∧
    (onboardResolvedValues fkSample { phone := some "11112222", country := some "DK" }).country =
      "DK" :=
  ⟨(claimC10_defaults_and_merge fkSample).2.2.1 "SE" (by decide),
   (claimC10_defaults_and_merge fkSample).2.2.2.2.1
     { phone := some "11112222", country := some "DK" } "11112222" rfl,
   (claimC10_defaults_and_merge fkSample).2.2.2.2.2.2.1
     { phone := some "11112222", country := some "DK" } "DK" rfl⟩

end StripeOnboarder
